import Mathlib

/-!
Shallow embedding of the eventhorizon event-sourcing core.

The aggregate base (src/aggregatebase.go) and the test aggregates, commands
and event payloads (src/eventhorizon_test.go) are translated directly from
the Go source.  The top-level event constructor, the event-data registry and
its lookup function live in a file of the repository that is not part of the
sources at hand; those are modelled from the specification (and from the
exact panic / error messages asserted by the tests in
src/eventhorizon_test.go), see the individual doc comments.

Go pointer-receiver methods are embedded in state-passing style: a method
returns a pair of its result and the receiver as it stands when the method
returns, so that frame properties (which fields a method leaves untouched)
are expressible.  Methods returning nothing return just the new receiver.
Go interface values that may be nil (the buffered Command and Event of the
test aggregates) become Option.  time.Time is modelled as a Nat tick count
whose zero value is the Go zero time.  Go errors are modelled as String
messages, a nil-able error as Option String, and a Go panic as the error
branch of Except.
-/

/-- AggregateType is the symbolic type identifier of an aggregate (a Go string). -/
abbrev AggregateType : Type := String

/-- EventType is the symbolic type identifier of an event (a Go string). -/
abbrev EventType : Type := String

/-- CommandType is the symbolic type identifier of a command (a Go string). -/
abbrev CommandType : Type := String

/-- UUID is the opaque identifier of an aggregate instance (modelled as a string). -/
abbrev UUID : Type := String

/-- The concrete event payload types declared in src/eventhorizon_test.go,
gathered in one closed sum standing for the open Go interface EventData. -/
inductive EventData : Type where
  | testEventData (content : String)
  | testEvent2Data (content : String)
  | testEventRegister
  | testEventRegisterEmpty
  | testEventRegisterTwice
deriving DecidableEq, Repr

/-- The concrete command types declared in src/eventhorizon_test.go, gathered
in one closed sum standing for the open Go interface Command. -/
inductive Command : Type where
  | testCommand (testID : UUID) (content : String)
  | testCommand2 (testID : UUID) (content : String)
deriving DecidableEq, Repr

/-- Modelled from the spec: the concrete event value of the core (its Go file
is not among the sources; only its tests are).  Spec section 4.2: an event
carries eventType, data, aggregateType, aggregateID, version and timestamp. -/
structure event : Type where
  eventType : EventType
  data : EventData
  timestamp : Nat
  aggregateType : AggregateType
  aggregateID : UUID
  version : Nat
deriving DecidableEq, Repr

/-- Modelled from the spec: the top-level constructor NewEvent of the core
(its Go file is not among the sources).  Spec section 4.2: stamps the current
timestamp, sets version to 0 and leaves aggregate linkage unset.  The current
clock reading is passed in as the argument now. -/
def NewEvent (eventType : EventType) (data : EventData) (now : Nat) : event :=
  { eventType := eventType
    data := data
    timestamp := now
    aggregateType := ""
    aggregateID := ""
    version := 0 }

/-- Modelled from the spec: the String method of an event renders as
type at-sign version, asserted concretely by TestNewEvent in
src/eventhorizon_test.go, which expects the text TestEvent@0. -/
def event.String (e : event) : String :=
  e.eventType ++ "@" ++ toString e.version

/-- EventType accessor of an event (reads the eventType field). -/
def event.EventType (e : event) : EventType := e.eventType

/-- Data accessor of an event (reads the data field). -/
def event.Data (e : event) : EventData := e.data

/-- Version accessor of an event (reads the version field). -/
def event.Version (e : event) : Nat := e.version

/-- Timestamp accessor of an event (reads the timestamp field). -/
def event.Timestamp (e : event) : Nat := e.timestamp

/-- Alias of the top-level NewEvent constructor: inside the AggregateBase
namespace the plain name would resolve to the method being defined, so the
method body refers to the constructor through this alias. -/
def mkFreshEvent : EventType → EventData → Nat → event := NewEvent

/-- AggregateBase, translated from src/aggregatebase.go.  The Go int version
is only ever incremented from its zero value, hence Nat. -/
structure AggregateBase : Type where
  aggregateType : AggregateType
  id : UUID
  version : Nat
  uncommittedEvents : List event
deriving DecidableEq, Repr

/-- NewAggregateBase, from src/aggregatebase.go: the Go composite literal
sets aggregateType, id and uncommittedEvents and leaves version at the int
zero value 0. -/
def NewAggregateBase (aggregateType : AggregateType) (id : UUID) : AggregateBase :=
  { aggregateType := aggregateType
    id := id
    version := 0
    uncommittedEvents := [] }

/-- AggregateType method of AggregateBase (src/aggregatebase.go): returns the
aggregateType field; the receiver is returned unchanged since the body writes
no field. -/
def AggregateBase.AggregateTypeOf (a : AggregateBase) : AggregateType × AggregateBase :=
  (a.aggregateType, a)

/-- AggregateID method of AggregateBase (src/aggregatebase.go): returns the
id field; the receiver is returned unchanged since the body writes no field. -/
def AggregateBase.AggregateID (a : AggregateBase) : UUID × AggregateBase :=
  (a.id, a)

/-- Version method of AggregateBase (src/aggregatebase.go): returns the
version field; the receiver is returned unchanged since the body writes no
field. -/
def AggregateBase.Version (a : AggregateBase) : Nat × AggregateBase :=
  (a.version, a)

/-- IncrementVersion method of AggregateBase (src/aggregatebase.go):
increments the version field. -/
def AggregateBase.IncrementVersion (a : AggregateBase) : AggregateBase :=
  { a with version := a.version + 1 }

/-- NewEvent method of AggregateBase (src/aggregatebase.go): builds an event
with the top-level constructor, then stamps aggregate type, id and version
plus one on it.  The Go type assertion to the concrete event type always
succeeds in this embedding, as the constructor returns that concrete type.
The body writes no field of the receiver, so the receiver is returned
unchanged as the second component. -/
def AggregateBase.NewEvent (a : AggregateBase) (eventType : EventType) (data : EventData)
    (now : Nat) : event × AggregateBase :=
  let e := mkFreshEvent eventType data now
  let e := { e with aggregateType := a.aggregateType
                    aggregateID := a.id
                    version := (a.Version).1 + 1 }
  (e, a)

/-- StoreEvent method of AggregateBase (src/aggregatebase.go): appends the
event to the uncommittedEvents slice. -/
def AggregateBase.StoreEvent (a : AggregateBase) (e : event) : AggregateBase :=
  { a with uncommittedEvents := a.uncommittedEvents ++ [e] }

/-- UncommittedEvents method of AggregateBase (src/aggregatebase.go): returns
the uncommittedEvents slice; the receiver is returned unchanged since the
body writes no field. -/
def AggregateBase.UncommittedEvents (a : AggregateBase) : List event × AggregateBase :=
  (a.uncommittedEvents, a)

/-- ClearUncommittedEvents method of AggregateBase (src/aggregatebase.go):
resets the uncommittedEvents slice to the empty slice. -/
def AggregateBase.ClearUncommittedEvents (a : AggregateBase) : AggregateBase :=
  { a with uncommittedEvents := [] }

/-- The symbolic type constants of src/eventhorizon_test.go. -/
def TestAggregateType : AggregateType := "TestAggregate"

/-- The aggregate type constant of TestAggregate2. -/
def TestAggregate2Type : AggregateType := "TestAggregate2"

/-- The event type constant of TestEvent. -/
def TestEventType : EventType := "TestEvent"

/-- The event type constant of TestEvent2. -/
def TestEvent2Type : EventType := "TestEvent2"

/-- The command type constant of TestCommand. -/
def TestCommandType : CommandType := "TestCommand"

/-- The command type constant of TestCommand2. -/
def TestCommand2Type : CommandType := "TestCommand2"

/-- The event type constants of the registry tests in src/eventhorizon_test.go. -/
def TestEventRegisterType : EventType := "TestEventRegister"

/-- The empty event type used by TestRegisterEventEmptyName. -/
def TestEventRegisterEmptyType : EventType := ""

/-- The event type used by TestRegisterEventTwice. -/
def TestEventRegisterTwiceType : EventType := "TestEventRegisterTwice"

/-- TestAggregate of src/eventhorizon_test.go: embeds AggregateBase and adds
three instrumentation fields.  The Go zero values of the two nil-able
interface fields are none, of the int field 0. -/
structure TestAggregate : Type where
  base : AggregateBase
  dispatchedCommand : Option Command
  appliedEvent : Option event
  numHandled : Nat
deriving DecidableEq, Repr

/-- NewTestAggregate of src/eventhorizon_test.go: a TestAggregate whose base
is a fresh AggregateBase of type TestAggregate and whose other fields keep
their Go zero values. -/
def NewTestAggregate (id : UUID) : TestAggregate :=
  { base := NewAggregateBase TestAggregateType id
    dispatchedCommand := none
    appliedEvent := none
    numHandled := 0 }

/-- HandleCommand of TestAggregate (src/eventhorizon_test.go).  The body
first records the command and bumps numHandled, then switches on the
command: a TestCommand with content error returns an error, any other
TestCommand stores a new TestEvent built from the content, and every other
command type falls through to the unhandled-command error.  The clock
reading for the created event is passed in as now. -/
def TestAggregate.HandleCommand (a : TestAggregate) (command : Command) (now : Nat) :
    Option String × TestAggregate :=
  let a := { a with dispatchedCommand := some command, numHandled := a.numHandled + 1 }
  match command with
  | Command.testCommand _ content =>
    if content = "error" then
      (some "command error", a)
    else
      let p := a.base.NewEvent TestEventType (EventData.testEventData content) now
      (none, { a with base := p.2.StoreEvent p.1 })
  | _ => (some "couldn't handle command", a)

/-- ApplyEvent of TestAggregate (src/eventhorizon_test.go): records the event
in appliedEvent, then the deferred IncrementVersion call bumps the base
version as the method returns. -/
def TestAggregate.ApplyEvent (a : TestAggregate) (e : event) : TestAggregate :=
  let a := { a with appliedEvent := some e }
  { a with base := a.base.IncrementVersion }

/-- TestAggregate2 of src/eventhorizon_test.go: same shape as TestAggregate. -/
structure TestAggregate2 : Type where
  base : AggregateBase
  dispatchedCommand : Option Command
  appliedEvent : Option event
  numHandled : Nat
deriving DecidableEq, Repr

/-- NewTestAggregate2 of src/eventhorizon_test.go. -/
def NewTestAggregate2 (id : UUID) : TestAggregate2 :=
  { base := NewAggregateBase TestAggregate2Type id
    dispatchedCommand := none
    appliedEvent := none
    numHandled := 0 }

/-- HandleCommand of TestAggregate2 (src/eventhorizon_test.go): analogous to
TestAggregate.HandleCommand, keyed on TestCommand2 and storing a TestEvent
whose payload is a TestEvent2Data. -/
def TestAggregate2.HandleCommand (a : TestAggregate2) (command : Command) (now : Nat) :
    Option String × TestAggregate2 :=
  let a := { a with dispatchedCommand := some command, numHandled := a.numHandled + 1 }
  match command with
  | Command.testCommand2 _ content =>
    if content = "error" then
      (some "command error", a)
    else
      let p := a.base.NewEvent TestEventType (EventData.testEvent2Data content) now
      (none, { a with base := p.2.StoreEvent p.1 })
  | _ => (some "couldn't handle command", a)

/-- ApplyEvent of TestAggregate2 (src/eventhorizon_test.go): records the
event in appliedEvent and, unlike TestAggregate.ApplyEvent, does not call
IncrementVersion. -/
def TestAggregate2.ApplyEvent (a : TestAggregate2) (e : event) : TestAggregate2 :=
  { a with appliedEvent := some e }

/-- Folds TestAggregate.ApplyEvent over a list of events, the N successive
apply calls of the version-monotonicity property. -/
def TestAggregate.applyEvents (a : TestAggregate) (es : List event) : TestAggregate :=
  es.foldl TestAggregate.ApplyEvent a

/-- The stream positions taken by successive applies: for each applied event,
the base version the aggregate reports right after applying it.  Two applied
events share a version exactly when this list has a duplicate. -/
def TestAggregate.applyVersionTrace (a : TestAggregate) : List event → List Nat
  | [] => []
  | e :: es =>
    let a2 := a.ApplyEvent e
    (a2.base.Version).1 :: a2.applyVersionTrace es

/-- A factory closure of the event-data registry (Go func() EventData). -/
abbrev EventDataFactory : Type := Unit → EventData

/-- Modelled from the spec: the process-wide event-data registry of the core
(its Go file is not among the sources; only its tests are).  The Go map from
EventType to factory is modelled as an association list queried from the
front. -/
structure EventDataRegistry : Type where
  eventDataFactories : List (EventType × EventDataFactory)

/-- Lookup in the registry, the Go map read factories[eventType]. -/
def EventDataRegistry.find (r : EventDataRegistry) (eventType : EventType) :
    Option EventDataFactory :=
  (r.eventDataFactories.find? (fun p => p.1 = eventType)).map Prod.snd

/-- Modelled from the spec: the error value ErrEventDataNotRegistered of the
core, a typed error signalling a lookup of an unregistered event type. -/
def ErrEventDataNotRegistered : String := "event data not registered"

/-- Modelled from the spec: RegisterEventData of the core (its Go file is not
among the sources).  Spec section 4.1 and the registry tests: registering an
empty type panics with the message asserted by TestRegisterEventEmptyName
before touching the map, registering a type already present panics with the
message asserted by TestRegisterEventTwice, and otherwise the factory is
added under the type.  A panic is the error branch, carrying the panic
message. -/
def RegisterEventData (r : EventDataRegistry) (eventType : EventType)
    (factory : EventDataFactory) : Except String EventDataRegistry :=
  if eventType = "" then
    Except.error "eventhorizon: attempt to register empty event type"
  else if (r.find eventType).isSome then
    Except.error ("eventhorizon: registering duplicate types for \"" ++ eventType ++ "\"")
  else
    Except.ok { eventDataFactories := r.eventDataFactories ++ [(eventType, factory)] }

/-- Modelled from the spec: CreateEventData of the core (its Go file is not
among the sources).  Spec section 4.1: returns a freshly constructed payload
from the registered factory, or signals that the type is not registered. -/
def CreateEventData (r : EventDataRegistry) (eventType : EventType) :
    Except String EventData :=
  match r.find eventType with
  | some factory => Except.ok (factory ())
  | none => Except.error ErrEventDataNotRegistered

/-- Applying one event through TestAggregate.ApplyEvent bumps the base
version by exactly one: the single deferred IncrementVersion call. -/
theorem applyEvent_version_succ (a : TestAggregate) (e : event) :
    (a.ApplyEvent e).base.version = a.base.version + 1 := rfl

/-- After folding ApplyEvent over a list the base version has grown by the
length of the list. -/
theorem applyEvents_version (es : List event) :
    ∀ a : TestAggregate, (a.applyEvents es).base.version = a.base.version + es.length := by
  induction es with
  | nil => intro a; rfl
  | cons e es ih =>
    intro a
    have hfold : a.applyEvents (e :: es) = (a.ApplyEvent e).applyEvents es := rfl
    rw [hfold, ih, applyEvent_version_succ, List.length_cons]
    omega

/-- The version trace of a fold of applies is the arithmetic progression of
successor versions starting right above the initial version. -/
theorem applyVersionTrace_formula (es : List event) :
    ∀ a : TestAggregate,
      a.applyVersionTrace es = (List.range es.length).map (fun i => a.base.version + i + 1) := by
  induction es with
  | nil => intro a; rfl
  | cons e es ih =>
    intro a
    have hhead : ((a.ApplyEvent e).base.Version).1 = a.base.version + 1 := rfl
    have htrace : a.applyVersionTrace (e :: es)
        = (a.base.version + 1) :: (a.ApplyEvent e).applyVersionTrace es := rfl
    rw [htrace, ih, applyEvent_version_succ, List.length_cons, List.range_succ_eq_map,
      List.map_cons, List.map_map]
    refine congrArg₂ List.cons (by omega) (List.map_congr_left ?h)
    intro i _
    simp only [Function.comp_apply]
    omega

/-- Claim C1: starting from a fresh TestAggregate, after N ApplyEvent calls
the reported version is N, no two applied events occupy the same stream
version, and each ApplyEvent call increments the version exactly once. -/
theorem claim_C1_version_monotonicity (id : UUID) (es : List event) :
    (((NewTestAggregate id).applyEvents es).base.Version).1 = es.length
    ∧ ((NewTestAggregate id).applyVersionTrace es).Nodup
    ∧ ∀ (a : TestAggregate) (e : event),
        ((a.ApplyEvent e).base.Version).1 = (a.base.Version).1 + 1 := by
  refine ⟨?ver, ?nodup, fun _ _ => rfl⟩
  case ver =>
    have h := applyEvents_version es (NewTestAggregate id)
    simpa [AggregateBase.Version, NewTestAggregate, NewAggregateBase] using h
  case nodup =>
    rw [applyVersionTrace_formula]
    refine List.Nodup.map ?inj (List.nodup_range _)
    intro i j hij
    simp only [] at hij
    omega

/-- Claim C2: the NewEvent method of AggregateBase stamps the created event
with the aggregate type, the aggregate id and the current version plus one;
hence two events created without an intervening apply carry equal versions. -/
theorem claim_C2_newEvent_stamps (a : AggregateBase) (t1 t2 : EventType)
    (d1 d2 : EventData) (n1 n2 : Nat) :
    (a.NewEvent t1 d1 n1).1.aggregateType = a.aggregateType
    ∧ (a.NewEvent t1 d1 n1).1.aggregateID = a.id
    ∧ (a.NewEvent t1 d1 n1).1.Version = (a.Version).1 + 1
    ∧ (a.NewEvent t1 d1 n1).1.Version = (a.NewEvent t2 d2 n2).1.Version :=
  ⟨rfl, rfl, rfl, rfl⟩

/-- Claim C6: StoreEvent appends the event at the end of the uncommitted
buffer and leaves version, aggregate type and id untouched. -/
theorem claim_C6_storeEvent_appends (a : AggregateBase) (e : event) :
    ((a.StoreEvent e).UncommittedEvents).1 = (a.UncommittedEvents).1 ++ [e]
    ∧ ((a.StoreEvent e).Version).1 = (a.Version).1
    ∧ ((a.StoreEvent e).AggregateTypeOf).1 = (a.AggregateTypeOf).1
    ∧ ((a.StoreEvent e).AggregateID).1 = (a.AggregateID).1 :=
  ⟨rfl, rfl, rfl, rfl⟩

/-- Claim C7: ClearUncommittedEvents empties the buffer and leaves aggregate
type, id and version untouched. -/
theorem claim_C7_clear_empties (a : AggregateBase) :
    ((a.ClearUncommittedEvents).UncommittedEvents).1 = []
    ∧ ((a.ClearUncommittedEvents).AggregateTypeOf).1 = (a.AggregateTypeOf).1
    ∧ ((a.ClearUncommittedEvents).AggregateID).1 = (a.AggregateID).1
    ∧ ((a.ClearUncommittedEvents).Version).1 = (a.Version).1 :=
  ⟨rfl, rfl, rfl, rfl⟩

/-- Claim C8: NewAggregateBase yields version 0, an empty buffer, and the
given type and id; the three accessors return the receiver unchanged, hence
have no side effects. -/
theorem claim_C8_fresh_aggregate (t : AggregateType) (id : UUID) :
    ((NewAggregateBase t id).Version).1 = 0
    ∧ ((NewAggregateBase t id).UncommittedEvents).1 = []
    ∧ ((NewAggregateBase t id).AggregateTypeOf).1 = t
    ∧ ((NewAggregateBase t id).AggregateID).1 = id
    ∧ ∀ a : AggregateBase,
        (a.AggregateTypeOf).2 = a ∧ (a.AggregateID).2 = a ∧ (a.Version).2 = a :=
  ⟨rfl, rfl, rfl, rfl, fun _ => ⟨rfl, rfl, rfl⟩⟩

/-- Claim C10: the NewEvent method leaves the aggregate base entirely
unchanged: the receiver after the call equals the receiver before, in
particular the uncommitted buffer and the version are untouched. -/
theorem claim_C10_newEvent_frame (a : AggregateBase) (t : EventType) (d : EventData)
    (now : Nat) :
    (a.NewEvent t d now).2 = a
    ∧ ((a.NewEvent t d now).2.UncommittedEvents).1 = (a.UncommittedEvents).1
    ∧ ((a.NewEvent t d now).2.Version).1 = (a.Version).1 :=
  ⟨rfl, rfl, rfl⟩

/-- Claim C3 counterexample: handling the invalid TestCommand with content
error on a fresh TestAggregate returns an error and stores nothing, yet the
aggregate is not left unmodified: the numHandled and dispatchedCommand
fields change, refuting the claim that no other aggregate field changes. -/
theorem claim_C3_counterexample :
    (((NewTestAggregate "a1").HandleCommand (Command.testCommand "a1" "error") 1).1
        = some "command error")
    ∧ ((NewTestAggregate "a1").HandleCommand
        (Command.testCommand "a1" "error") 1).2.base.uncommittedEvents = []
    ∧ ((NewTestAggregate "a1").HandleCommand
        (Command.testCommand "a1" "error") 1).2.base.version = 0
    ∧ ((NewTestAggregate "a1").HandleCommand
        (Command.testCommand "a1" "error") 1).2.numHandled = 1
    ∧ (NewTestAggregate "a1").numHandled = 0
    ∧ ((NewTestAggregate "a1").HandleCommand (Command.testCommand "a1" "error") 1).2
        ≠ NewTestAggregate "a1" := by
  decide

/-- Claim C3 amended: on every failing command (invalid content or
unrecognized command type) HandleCommand of TestAggregate returns a non-nil
error and leaves the embedded base untouched, so no event is stored and the
version is unchanged; however the instrumentation fields are still updated,
dispatchedCommand to the command and numHandled by one, while appliedEvent
stays put. -/
theorem claim_C3_error_leaves_base_unchanged (a : TestAggregate) (c : Command) (now : Nat)
    (h : ((a.HandleCommand c now).1).isSome = true) :
    (a.HandleCommand c now).2.base = a.base
    ∧ (a.HandleCommand c now).2.appliedEvent = a.appliedEvent
    ∧ (a.HandleCommand c now).2.dispatchedCommand = some c
    ∧ (a.HandleCommand c now).2.numHandled = a.numHandled + 1 := by
  cases c with
  | testCommand tid content =>
    by_cases hc : content = "error"
    · simp [TestAggregate.HandleCommand, hc]
    · simp [TestAggregate.HandleCommand, hc] at h
  | testCommand2 tid content =>
    simp [TestAggregate.HandleCommand]

/-- Witness for the amended claim C3 at a concrete unrecognized command. -/
theorem claim_C3_amended_witness :
    ((((NewTestAggregate "a2").HandleCommand (Command.testCommand2 "a2" "x") 3).1).isSome = true)
    ∧ (((NewTestAggregate "a2").HandleCommand (Command.testCommand2 "a2" "x") 3).2.base
          = (NewTestAggregate "a2").base
        ∧ ((NewTestAggregate "a2").HandleCommand (Command.testCommand2 "a2" "x") 3).2.appliedEvent
          = (NewTestAggregate "a2").appliedEvent
        ∧ ((NewTestAggregate "a2").HandleCommand (Command.testCommand2 "a2" "x") 3).2.dispatchedCommand
          = some (Command.testCommand2 "a2" "x")
        ∧ ((NewTestAggregate "a2").HandleCommand (Command.testCommand2 "a2" "x") 3).2.numHandled
          = (NewTestAggregate "a2").numHandled + 1) :=
  ⟨by decide, claim_C3_error_leaves_base_unchanged (NewTestAggregate "a2")
    (Command.testCommand2 "a2" "x") 3 (by decide)⟩

/-- A key not found anywhere in an association list is found, with its
freshly appended factory, once that pair is appended at the end. -/
theorem find_after_append (l : List (EventType × EventDataFactory)) (t : EventType)
    (f : EventDataFactory) (h : l.find? (fun p => p.1 = t) = none) :
    (l ++ [(t, f)]).find? (fun p => p.1 = t) = some (t, f) := by
  induction l with
  | nil => simp
  | cons x xs ih =>
    by_cases hx : x.1 = t
    · simp [List.find?, hx] at h
    · rw [List.cons_append] at *
      simp only [List.find?, hx, decide_eq_true_eq] at h ⊢
      exact ih h

/-- Claim C4: registering the empty event type fails with the empty-type
panic message for every registry state, before any entry could be observed;
and after a successful first registration of a type, a second registration
of the same type fails with the duplicate-type panic message while the first
factory remains effective, as CreateEventData still constructs through it. -/
theorem claim_C4_register_fail_fast (r r2 : EventDataRegistry) (t : EventType)
    (f g : EventDataFactory) (hne : t ≠ "") (hfresh : r.find t = none)
    (hreg : RegisterEventData r t f = Except.ok r2) :
    (∀ (r0 : EventDataRegistry) (f0 : EventDataFactory),
        RegisterEventData r0 "" f0
          = Except.error "eventhorizon: attempt to register empty event type")
    ∧ RegisterEventData r2 t g
        = Except.error ("eventhorizon: registering duplicate types for \"" ++ t ++ "\"")
    ∧ CreateEventData r2 t = Except.ok (f ()) := by
  have hlist : r.eventDataFactories.find? (fun p => p.1 = t) = none := by
    have hm := hfresh
    unfold EventDataRegistry.find at hm
    exact Option.map_eq_none'.mp hm
  have hr2 : r2 = { eventDataFactories := r.eventDataFactories ++ [(t, f)] } := by
    unfold RegisterEventData at hreg
    rw [if_neg hne, hfresh] at hreg
    simp only [Option.isSome_none, Bool.false_eq_true, if_false, Except.ok.injEq] at hreg
    exact hreg.symm
  have hfind : r2.find t = some f := by
    rw [hr2]
    unfold EventDataRegistry.find
    rw [find_after_append _ _ _ hlist]
    rfl
  refine ⟨fun r0 f0 => rfl, ?dup, ?create⟩
  case dup =>
    unfold RegisterEventData
    rw [if_neg hne, hfind]
    rfl
  case create =>
    unfold CreateEventData
    rw [hfind]

/-- Witness for claim C4: duplicate registration of the TestEventRegisterTwice
type over the empty registry. -/
theorem claim_C4_witness :
    (TestEventRegisterTwiceType ≠ "")
    ∧ (EventDataRegistry.find { eventDataFactories := [] } TestEventRegisterTwiceType = none)
    ∧ (RegisterEventData { eventDataFactories := [] } TestEventRegisterTwiceType
          (fun _ => EventData.testEventRegisterTwice)
        = Except.ok { eventDataFactories :=
            [(TestEventRegisterTwiceType, fun _ => EventData.testEventRegisterTwice)] })
    ∧ ((∀ (r0 : EventDataRegistry) (f0 : EventDataFactory),
          RegisterEventData r0 "" f0
            = Except.error "eventhorizon: attempt to register empty event type")
        ∧ RegisterEventData
            { eventDataFactories :=
              [(TestEventRegisterTwiceType, fun _ => EventData.testEventRegisterTwice)] }
            TestEventRegisterTwiceType (fun _ => EventData.testEventRegisterTwice)
          = Except.error
              ("eventhorizon: registering duplicate types for \""
                ++ TestEventRegisterTwiceType ++ "\"")
        ∧ CreateEventData
            { eventDataFactories :=
              [(TestEventRegisterTwiceType, fun _ => EventData.testEventRegisterTwice)] }
            TestEventRegisterTwiceType
          = Except.ok ((fun _ => EventData.testEventRegisterTwice) ())) :=
  ⟨by decide, rfl, rfl,
    claim_C4_register_fail_fast { eventDataFactories := [] }
      { eventDataFactories :=
        [(TestEventRegisterTwiceType, fun _ => EventData.testEventRegisterTwice)] }
      TestEventRegisterTwiceType (fun _ => EventData.testEventRegisterTwice)
      (fun _ => EventData.testEventRegisterTwice) (by decide) rfl rfl⟩

/-- Claim C5: CreateEventData on an unregistered type is exactly the typed
ErrEventDataNotRegistered error with no payload, and on a registered type it
is the payload freshly constructed by the registered factory with no error. -/
theorem claim_C5_createEventData (r : EventDataRegistry) (t : EventType) :
    (r.find t = none → CreateEventData r t = Except.error ErrEventDataNotRegistered)
    ∧ ∀ f : EventDataFactory, r.find t = some f → CreateEventData r t = Except.ok (f ()) := by
  constructor
  · intro h
    unfold CreateEventData
    rw [h]
  · intro f h
    unfold CreateEventData
    rw [h]

/-- Witness for claim C5 at the empty registry and at the singleton registry
holding the TestEventRegister factory, mirroring TestCreateEventData. -/
theorem claim_C5_witness :
    (EventDataRegistry.find { eventDataFactories := [] } TestEventRegisterType = none)
    ∧ (CreateEventData { eventDataFactories := [] } TestEventRegisterType
        = Except.error ErrEventDataNotRegistered)
    ∧ (EventDataRegistry.find
        { eventDataFactories := [(TestEventRegisterType, fun _ => EventData.testEventRegister)] }
        TestEventRegisterType = some (fun _ => EventData.testEventRegister))
    ∧ (CreateEventData
        { eventDataFactories := [(TestEventRegisterType, fun _ => EventData.testEventRegister)] }
        TestEventRegisterType
        = Except.ok ((fun _ => EventData.testEventRegister) ())) :=
  ⟨rfl,
    (claim_C5_createEventData { eventDataFactories := [] } TestEventRegisterType).1 rfl,
    rfl,
    (claim_C5_createEventData
      { eventDataFactories := [(TestEventRegisterType, fun _ => EventData.testEventRegister)] }
      TestEventRegisterType).2 (fun _ => EventData.testEventRegister) rfl⟩

/-- Claim C9: the top-level constructor yields an event with the given type
and payload, version 0, the non-zero current time as its timestamp, unset
aggregate linkage, and a String rendering of type at-sign version, which at
the TestEvent type is the text TestEvent@0. -/
theorem claim_C9_fresh_event (t : EventType) (d : EventData) (now : Nat) (h : now ≠ 0) :
    (NewEvent t d now).EventType = t
    ∧ (NewEvent t d now).Data = d
    ∧ (NewEvent t d now).Version = 0
    ∧ (NewEvent t d now).Timestamp = now
    ∧ (NewEvent t d now).Timestamp ≠ 0
    ∧ (NewEvent t d now).aggregateType = ""
    ∧ (NewEvent t d now).aggregateID = ""
    ∧ (NewEvent t d now).String = t ++ "@" ++ toString (0 : Nat)
    ∧ (NewEvent TestEventType (EventData.testEventData "event1") 1).String = "TestEvent@0" :=
  ⟨rfl, rfl, rfl, rfl, h, rfl, rfl, rfl, by decide⟩

/-- Witness for claim C9 at the concrete event of TestNewEvent, built at
clock reading 1. -/
theorem claim_C9_witness :
    ((1 : Nat) ≠ 0)
    ∧ ((NewEvent TestEventType (EventData.testEventData "event1") 1).EventType = TestEventType
      ∧ (NewEvent TestEventType (EventData.testEventData "event1") 1).Data
          = EventData.testEventData "event1"
      ∧ (NewEvent TestEventType (EventData.testEventData "event1") 1).Version = 0
      ∧ (NewEvent TestEventType (EventData.testEventData "event1") 1).Timestamp = 1
      ∧ (NewEvent TestEventType (EventData.testEventData "event1") 1).Timestamp ≠ 0
      ∧ (NewEvent TestEventType (EventData.testEventData "event1") 1).aggregateType = ""
      ∧ (NewEvent TestEventType (EventData.testEventData "event1") 1).aggregateID = ""
      ∧ (NewEvent TestEventType (EventData.testEventData "event1") 1).String
          = TestEventType ++ "@" ++ toString (0 : Nat)
      ∧ (NewEvent TestEventType (EventData.testEventData "event1") 1).String = "TestEvent@0") :=
  ⟨by decide,
    claim_C9_fresh_event TestEventType (EventData.testEventData "event1") 1 (by decide)⟩
